import Mathlib

/-!
Verification development for `spacex_meshtastic.py`, a script that fetches
the next SpaceX launch from Vandenberg via the Launch Library 2 API, formats
it into a short message, and sends it to a Meshtastic channel.

The Python functions are shallowly embedded as Lean definitions.  JSON
dictionaries coming from the API are modelled as structures with `Option`
fields (a `none` field models a missing key; `dict.get(k, default)` becomes
`Option.getD`).  Side effects of the transmitter (device connections, text
sends, closes) are modelled as an explicit event trace, and the behaviour of
the external device (whether connect or send raises) as an oracle record.
-/

set_option maxRecDepth 100000

namespace SpacexMeshtastic

/-! ## Data model: API response shapes -/

/-- Model of the `location` sub-dictionary of a launch pad in the Launch
Library 2 API response (`pad.location.name`). -/
structure Location where
  name : Option String
deriving Repr, DecidableEq

/-- Model of the `pad` sub-dictionary of a launch (`pad.name`,
`pad.location`). -/
structure Pad where
  name : Option String
  location : Option Location
deriving Repr, DecidableEq

/-- Model of the `mission` sub-dictionary of a launch (`mission.name`,
`mission.description`, `mission.type`). -/
structure Mission where
  name : Option String
  description : Option String
  type : Option String
deriving Repr, DecidableEq

/-- Model of the `rocket.configuration` sub-dictionary (`configuration.name`). -/
structure RocketConfiguration where
  name : Option String
deriving Repr, DecidableEq

/-- Model of the `rocket` sub-dictionary of a launch. -/
structure Rocket where
  configuration : Option RocketConfiguration
deriving Repr, DecidableEq

/-- Model of one element of the `results` array of the Launch Library 2
upcoming-launches response: the fields of a launch dictionary that
`get_next_vandenberg_launch` reads. -/
structure Launch where
  name : Option String
  net : Option String
  pad : Option Pad
  mission : Option Mission
  rocket : Option Rocket
deriving Repr, DecidableEq

/-- The dictionary returned by `get_next_vandenberg_launch` for a matching
launch (keys `name`, `date_utc`, `payload_names`, `launchpad_name`,
`mission_type`). -/
structure LaunchInfo where
  name : String
  date_utc : String
  payload_names : List String
  launchpad_name : String
  mission_type : String
deriving Repr, DecidableEq

/-! ## Launch fetcher (`get_next_vandenberg_launch`, lines 34-102) -/

/-- Python substring containment `needle in hay`, on the character sequences
of the two strings: some suffix of `hay` starts with `needle`. -/
def containsSubstr (hay needle : String) : Bool :=
  hay.data.tails.any fun t => needle.data.isPrefixOf t

/-- Python `str.lower()`: lowercase every character (the keywords and env
values compared against are ASCII, where Python lowercasing is exactly
per-character `Char.toLower`). -/
def pyLower (s : String) : String :=
  String.mk (s.data.map Char.toLower)

/-- Line 58: `vandenberg_keywords = ['vandenberg', 'vsfb', 'slc-4', 'slc-3']`. -/
def vandenberg_keywords : List String :=
  ["vandenberg", "vsfb", "slc-4", "slc-3"]

/-- Line 64: `pad_name = pad.get('name', '').lower()` where
`pad = launch.get('pad', {})`. -/
def pad_name_of (launch : Launch) : String :=
  pyLower ((launch.pad.bind Pad.name).getD "")

/-- Line 65: `location_name = pad.get('location', {}).get('name', '').lower()`. -/
def location_name_of (launch : Launch) : String :=
  pyLower ((((launch.pad.bind Pad.location).bind Location.name)).getD "")

/-- Lines 68-69: the launch is a Vandenberg launch when any keyword occurs in
the lowercased pad name or in the lowercased location name. -/
def matches_vandenberg (launch : Launch) : Bool :=
  (vandenberg_keywords.any fun keyword => containsSubstr (pad_name_of launch) keyword) ||
  (vandenberg_keywords.any fun keyword => containsSubstr (location_name_of launch) keyword)

/-- Lines 74-95: build the returned dictionary for the first matching launch.
Payload names come from `mission.get('name', '')` when that is non-empty
(Python truthiness), else from `launch.get('rocket', {}).get('configuration',
{}).get('name', '')` when that is non-empty, else stay empty.  The
`mission_type` key is `mission.get('type', 'Unknown')`. -/
def mk_launch_record (launch : Launch) : LaunchInfo :=
  let mission_name := ((launch.mission.bind Mission.name).getD "")
  let rocket_name :=
    (((launch.rocket.bind Rocket.configuration).bind RocketConfiguration.name).getD "")
  let payload_names :=
    if mission_name ≠ "" then [mission_name]
    else if rocket_name ≠ "" then [rocket_name]
    else []
  { name := launch.name.getD "Unknown Mission"
    date_utc := launch.net.getD ""
    payload_names := payload_names
    launchpad_name := (launch.pad.bind Pad.name).getD "Vandenberg"
    mission_type := (launch.mission.bind Mission.type).getD "Unknown" }

/-- Lines 61-98: scan the `results` list in order and return the record of the
first matching launch, or `none` when no launch matches. -/
def find_vandenberg : List Launch → Option LaunchInfo
  | [] => none
  | launch :: rest =>
    if matches_vandenberg launch then some (mk_launch_record launch)
    else find_vandenberg rest

/-- Outcome of the HTTP fetch in `get_next_vandenberg_launch`: either a parsed
`results` list, or one of the `requests.exceptions.RequestException` failures
that the `try` block can raise — `requests.get` timing out (line 51),
`raise_for_status` on a non-2xx response (line 52), or `response.json()` on a
malformed body (line 53; `requests.exceptions.JSONDecodeError` is a
`RequestException`). -/
inductive FetchOutcome where
  | ok (launches : List Launch)
  | timeout
  | httpError (status : Nat)
  | malformedBody
deriving Repr, DecidableEq

/-- Lines 39-102: on a successful response scan the results; any
`RequestException` is caught at lines 100-102 and turned into `None`. -/
def get_next_vandenberg_launch (outcome : FetchOutcome) : Option LaunchInfo :=
  match outcome with
  | .ok launches => find_vandenberg launches
  | .timeout => none
  | .httpError _ => none
  | .malformedBody => none

/-! ## Payload formatting (`get_payload_info`, lines 105-110) -/

/-- Lines 105-110: `", ".join(payload_names)`, or the literal
`"No payload information"` for an empty (falsy) list. -/
def get_payload_info (payload_names : List String) : String :=
  if payload_names.isEmpty then "No payload information"
  else String.intercalate ", " payload_names

/-! ## Datetime model (`datetime.fromisoformat`, `astimezone`, `strftime`)

The script parses `launch_info['date_utc'].replace('Z', '+00:00')` with
`datetime.fromisoformat`, converts the aware datetime to the fixed
`America/Phoenix` zone (UTC-7, no daylight saving), and renders it with
`strftime('%b %d, %Y @ %I:%M %p')`.  These library functions are modelled
below for the timestamp shape the API produces after the `Z` normalization:
`YYYY-MM-DDTHH:MM:SS±HH:MM`, with the same field validation `fromisoformat`
performs; other inputs are modelled as a parse failure. -/

/-- An aware Python `datetime`: civil fields plus the timezone's UTC offset in
minutes. -/
structure PyDateTime where
  year : Int
  month : Nat
  day : Nat
  hour : Nat
  minute : Nat
  second : Nat
  offset_minutes : Int
deriving Repr, DecidableEq

/-- Gregorian leap-year test. -/
def isLeap (y : Int) : Bool :=
  (y % 4 == 0 && y % 100 != 0) || y % 400 == 0

/-- Number of days of month `m` in year `y`. -/
def daysInMonth (y : Int) (m : Nat) : Nat :=
  if m = 2 then (if isLeap y then 29 else 28)
  else if m = 4 || m = 6 || m = 9 || m = 11 then 30
  else 31

/-- Days from the civil date `(y, m, d)` to 1970-01-01 (negative before the
epoch), by the standard days-from-civil calendar algorithm with floor
division. -/
def daysFromCivil (y : Int) (m d : Nat) : Int :=
  let yAdj : Int := if m ≤ 2 then y - 1 else y
  let era : Int := Int.ediv yAdj 400
  let yoe : Int := yAdj - era * 400
  let mp : Nat := if m > 2 then m - 3 else m + 9
  let doy : Nat := (153 * mp + 2) / 5 + d - 1
  let doe : Int := yoe * 365 + Int.ediv yoe 4 - Int.ediv yoe 100 + (doy : Int)
  era * 146097 + doe - 719468

/-- Inverse of `daysFromCivil`: the civil date of day `z` counted from
1970-01-01. -/
def civilFromDays (z : Int) : Int × Nat × Nat :=
  let zAdj : Int := z + 719468
  let era : Int := Int.ediv zAdj 146097
  let doe : Nat := (zAdj - era * 146097).toNat
  let yoe : Nat := (doe - doe / 1460 + doe / 36524 - doe / 146096) / 365
  let doy : Nat := doe - (365 * yoe + yoe / 4 - yoe / 100)
  let mp : Nat := (5 * doy + 2) / 153
  let d : Nat := doy - (153 * mp + 2) / 5 + 1
  let m : Nat := if mp < 10 then mp + 3 else mp - 9
  let y : Int := (yoe : Int) + era * 400
  (if m ≤ 2 then y + 1 else y, m, d)

/-- Two-digit decimal number from two characters. -/
def digit2 (a b : Char) : Option Nat :=
  if a.isDigit && b.isDigit then some ((a.toNat - 48) * 10 + (b.toNat - 48))
  else none

/-- Four-digit decimal number from four characters. -/
def digit4 (a b c d : Char) : Option Nat :=
  if a.isDigit && b.isDigit && c.isDigit && d.isDigit then
    some (((a.toNat - 48) * 10 + (b.toNat - 48)) * 100 +
          ((c.toNat - 48) * 10 + (d.toNat - 48)))
  else none

/-- Model of `datetime.fromisoformat` on strings of the shape
`YYYY-MM-DDTHH:MM:SS±HH:MM` (the shape the API's `net` field has after
`replace('Z', '+00:00')`), including the range validation `fromisoformat`
performs; any other input is a parse failure (`ValueError`). -/
def fromisoformat (s : String) : Option PyDateTime :=
  match s.data with
  | [y1, y2, y3, y4, c1, mo1, mo2, c2, d1, d2, c3, h1, h2, c4,
     mi1, mi2, c5, s1, s2, sgn, oh1, oh2, c6, om1, om2] =>
    match digit4 y1 y2 y3 y4, digit2 mo1 mo2, digit2 d1 d2, digit2 h1 h2,
          digit2 mi1 mi2, digit2 s1 s2, digit2 oh1 oh2, digit2 om1 om2 with
    | some y, some mo, some d, some h, some mi, some sec, some oh, some om =>
      if c1 = '-' && c2 = '-' && c3 = 'T' && c4 = ':' && c5 = ':' && c6 = ':' &&
         (sgn = '+' || sgn = '-') &&
         decide (1 ≤ y) && decide (1 ≤ mo) && decide (mo ≤ 12) &&
         decide (1 ≤ d) && decide (d ≤ daysInMonth (y : Int) mo) &&
         decide (h ≤ 23) && decide (mi ≤ 59) && decide (sec ≤ 59) &&
         decide (oh ≤ 23) && decide (om ≤ 59) then
        some { year := (y : Int), month := mo, day := d, hour := h,
               minute := mi, second := sec,
               offset_minutes :=
                 (if sgn = '+' then 1 else -1) * ((oh : Int) * 60 + (om : Int)) }
      else none
    | _, _, _, _, _, _, _, _ => none
  | _ => none

/-- Model of `datetime.astimezone` to a fixed-offset zone: keep the instant,
re-express the civil fields at `target_offset` minutes from UTC.  Seconds are
unchanged because offsets are whole minutes. -/
def astimezone (dt : PyDateTime) (target_offset : Int) : PyDateTime :=
  let wall : Int :=
    daysFromCivil dt.year dt.month dt.day * 1440 + ((dt.hour : Int) * 60 + (dt.minute : Int))
  let utc_total : Int := wall - dt.offset_minutes
  let local_total : Int := utc_total + target_offset
  let day : Int := Int.ediv local_total 1440
  let rem : Nat := (Int.emod local_total 1440).toNat
  let civil := civilFromDays day
  { year := civil.1, month := civil.2.1, day := civil.2.2,
    hour := rem / 60, minute := rem % 60, second := dt.second,
    offset_minutes := target_offset }

/-- The UTC offset of `pytz.timezone('America/Phoenix')` in minutes: MST is
UTC-7 year-round (Arizona observes no daylight saving time). -/
def phoenix_offset : Int := -420

/-- Month abbreviations of `strftime('%b')` in the C locale. -/
def monthAbbrev (m : Nat) : String :=
  match m with
  | 1 => "Jan" | 2 => "Feb" | 3 => "Mar" | 4 => "Apr" | 5 => "May" | 6 => "Jun"
  | 7 => "Jul" | 8 => "Aug" | 9 => "Sep" | 10 => "Oct" | 11 => "Nov" | 12 => "Dec"
  | _ => ""

/-- Zero-padded two-digit rendering. -/
def pad2 (n : Nat) : String :=
  if n < 10 then "0" ++ toString n else toString n

/-- Model of `strftime('%b %d, %Y @ %I:%M %p')` on line 130. -/
def strftime_launch (dt : PyDateTime) : String :=
  let h12 := dt.hour % 12
  let h12 := if h12 = 0 then 12 else h12
  monthAbbrev dt.month ++ " " ++ pad2 dt.day ++ ", " ++ toString dt.year ++
    " @ " ++ pad2 h12 ++ ":" ++ pad2 dt.minute ++ " " ++
    (if dt.hour < 12 then "AM" else "PM")

/-- Python `str.replace(old, new)` for the one-character pattern used at line
119 (`.replace('Z', '+00:00')`): every occurrence of the character is
replaced. -/
def replaceChar (s : String) (old : Char) (new : String) : String :=
  String.mk ((s.data.map fun c => if c = old then new.data else [c]).flatten)

/-! ## Message formatter (`format_launch_message`, lines 113-134) -/

/-- Lines 113-134.  `none` input (falsy `launch_info`) yields the fixed
literal.  Otherwise the `date_utc` string has `Z` replaced by `+00:00`, is
parsed, converted to Arizona time, and interpolated into the 4-line message;
a parse failure models the uncaught `ValueError`, so the result is `none`. -/
def format_launch_message (launch_info : Option LaunchInfo) : Option String :=
  match launch_info with
  | none => some "No upcoming Vandenberg launches found."
  | some info =>
    match fromisoformat (replaceChar info.date_utc 'Z' "+00:00") with
    | none => none
    | some utc_time =>
      let az_time := astimezone utc_time phoenix_offset
      some ("Next Vandenberg Launch:\n🚀 " ++ info.name ++ "\n📅 " ++
            strftime_launch az_time ++ " AZ\n📦 " ++
            get_payload_info info.payload_names)

/-! ## Configuration (`load_config`, lines 19-31) -/

/-- Config dictionary built by `load_config` (lines 23-29). -/
structure Config where
  connection_type : String
  serial_port : String
  tcp_host : String
  channel : Int
  send_enabled : Bool
deriving Repr, DecidableEq

/-- Line 28: `os.getenv('MESHTASTIC_SEND_ENABLED', 'true').lower() == 'true'`.
The argument is the value of the environment variable, `none` when unset. -/
def load_config_send_enabled (env_value : Option String) : Bool :=
  pyLower (env_value.getD "true") == "true"

/-! ## Transmitter (`send_to_meshtastic`, lines 137-183) -/

/-- Lines 139-143: truncate the message to the 200-character limit, returning
the message actually used and whether the truncation warning was printed. -/
def truncate_message (message : String) : String × Bool :=
  if message.length > 200 then (String.mk (message.data.take 197) ++ "...", true)
  else (message, false)

/-- Observable device interactions of `send_to_meshtastic`: opening a TCP or
serial connection, calling `interface.sendText(message, channelIndex=...)`,
and `interface.close()`. -/
inductive DevEvent where
  | connectTCP (hostname : String)
  | connectSerial (devPath : String)
  | sendText (message : String) (channelIndex : Int)
  | close
deriving Repr, DecidableEq

/-- Oracle for the external device: whether the connection constructor raises
and whether `sendText` raises. -/
structure DeviceWorld where
  connect_raises : Bool
  send_raises : Bool
deriving Repr, DecidableEq

/-- Result of one call to `send_to_meshtastic`: the boolean return value, the
trace of device interactions in order, whether the truncation warning was
printed, and the (possibly truncated) message value used by the body. -/
structure SendOutcome where
  success : Bool
  events : List DevEvent
  warned : Bool
  message_used : String
deriving Repr, DecidableEq

/-- Lines 137-183.  After truncation: in test mode (`send_enabled` false) the
message is printed and `True` returned without touching the device (lines
146-156).  Otherwise one connection is attempted (TCP when
`connection_type == 'tcp'`, else serial, lines 163-168); if the constructor
raises, the `except` returns `False` and the `finally` skips `close` because
`interface` is still `None` (lines 159, 177-183); if `sendText` raises, the
`except` returns `False` and the `finally` closes; otherwise `True` is
returned and the `finally` closes. -/
def send_to_meshtastic (message : String) (config : Config) (world : DeviceWorld) :
    SendOutcome :=
  let truncated := truncate_message message
  let message := truncated.1
  let warned := truncated.2
  if !config.send_enabled then
    { success := true, events := [], warned := warned, message_used := message }
  else
    let connectEv :=
      if config.connection_type == "tcp" then DevEvent.connectTCP config.tcp_host
      else DevEvent.connectSerial config.serial_port
    if world.connect_raises then
      { success := false, events := [connectEv], warned := warned, message_used := message }
    else if world.send_raises then
      { success := false
        events := [connectEv, DevEvent.sendText message config.channel, DevEvent.close]
        warned := warned, message_used := message }
    else
      { success := true
        events := [connectEv, DevEvent.sendText message config.channel, DevEvent.close]
        warned := warned, message_used := message }

/-! ## Entry point (`main`, lines 186-221) -/

/-- Lines 186-221 as far as the exit code is concerned: fetch; if no launch
was found return `0`; otherwise format the message (a timestamp parse failure
is an uncaught exception, modelled as `none`: no exit code is returned by
`main`) and return `0` when the send succeeded, else `1`. -/
def mainRun (outcome : FetchOutcome) (config : Config) (world : DeviceWorld) :
    Option Nat :=
  match get_next_vandenberg_launch outcome with
  | none => some 0
  | some launch_info =>
    match format_launch_message (some launch_info) with
    | none => none
    | some message =>
      some (if (send_to_meshtastic message config world).success then 0 else 1)

/-! ## Concrete example values used in witnesses and counterexamples -/

/-- A Vandenberg launch as returned by the API: pad `SLC-4E` at
`Vandenberg SFB`, mission `Starlink Group 9-1` with a description but no
`type` key. -/
def vandyLaunch : Launch :=
  { name := some "Starlink Group 9-1"
    net := some "2024-03-15T18:30:00Z"
    pad := some { name := some "SLC-4E", location := some { name := some "Vandenberg SFB" } }
    mission := some { name := some "Starlink Group 9-1"
                      description := some "A batch of Starlink satellites"
                      type := none }
    rocket := none }

/-- A Cape Canaveral launch: neither `space launch complex 40` nor
`cape canaveral sfs, fl, usa` contains any of the keywords. -/
def capeLaunch : Launch :=
  { name := some "Starlink Group 10-2"
    net := some "2024-03-14T00:00:00Z"
    pad := some { name := some "Space Launch Complex 40"
                  location := some { name := some "Cape Canaveral SFS, FL, USA" } }
    mission := none
    rocket := none }

/-- The mock launch record of the spec's formatter test. -/
def starlinkRecord : LaunchInfo :=
  { name := "Starlink Group 9-1"
    date_utc := "2024-03-15T18:30:00Z"
    payload_names := ["Starlink Group 9-1"]
    launchpad_name := "SLC-4E"
    mission_type := "Unknown" }

/-- A configuration with sending enabled over TCP. -/
def liveConfig : Config :=
  { connection_type := "tcp", serial_port := "COM3", tcp_host := "192.168.1.100"
    channel := 0, send_enabled := true }

/-- A configuration with sending disabled (dry run). -/
def dryConfig : Config :=
  { connection_type := "serial", serial_port := "COM3", tcp_host := "192.168.1.100"
    channel := 0, send_enabled := false }

/-- Trace observer: is the event a connection attempt (of either transport)? -/
def isConnect : DevEvent → Bool
  | .connectTCP _ => true
  | .connectSerial _ => true
  | _ => false

/-- Trace observer: is the event a `sendText` call? -/
def isSend : DevEvent → Bool
  | .sendText _ _ => true
  | _ => false

/-! ## Helper lemmas -/

/-- The executable substring test agrees with list infix containment. -/
theorem containsSubstr_iff (hay needle : String) :
    containsSubstr hay needle = true ↔ needle.data <:+: hay.data := by
  unfold containsSubstr
  rw [List.any_eq_true]
  constructor
  · rintro ⟨t, ht, hp⟩
    rw [List.mem_tails] at ht
    exact List.infix_iff_prefix_suffix.mpr ⟨t, List.isPrefixOf_iff_prefix.mp hp, ht⟩
  · intro h
    obtain ⟨t, hpre, hsuf⟩ := List.infix_iff_prefix_suffix.mp h
    exact ⟨t, (List.mem_tails _ _).mpr hsuf, List.isPrefixOf_iff_prefix.mpr hpre⟩

/-- The scan returns the first matching element of the list. -/
theorem find_vandenberg_append (pre : List Launch) (x : Launch) (post : List Launch)
    (hpre : ∀ y ∈ pre, matches_vandenberg y = false)
    (hx : matches_vandenberg x = true) :
    find_vandenberg (pre ++ x :: post) = some (mk_launch_record x) := by
  induction pre with
  | nil => simp [find_vandenberg, hx]
  | cons a t ih =>
    have ha : matches_vandenberg a = false := hpre a (by simp)
    simp only [List.cons_append, find_vandenberg, ha, Bool.false_eq_true, if_false]
    exact ih fun y hy => hpre y (by simp [hy])

/-- The scan returns `none` when nothing matches. -/
theorem find_vandenberg_none (launches : List Launch)
    (h : ∀ y ∈ launches, matches_vandenberg y = false) :
    find_vandenberg launches = none := by
  induction launches with
  | nil => rfl
  | cons a t ih =>
    have ha : matches_vandenberg a = false := h a (by simp)
    simp only [find_vandenberg, ha, Bool.false_eq_true, if_false]
    exact ih fun y hy => h y (by simp [hy])

/-- Accumulator lemma for `String.intercalate.go`. -/
theorem intercalate_go_append (x y sep : String) (l : List String) :
    String.intercalate.go (x ++ y) sep l = x ++ String.intercalate.go y sep l := by
  induction l generalizing y with
  | nil => rfl
  | cons a as ih =>
    show String.intercalate.go (x ++ y ++ sep ++ a) sep as
        = x ++ String.intercalate.go (y ++ sep ++ a) sep as
    rw [String.append_assoc x y sep, String.append_assoc x (y ++ sep) a]
    exact ih (y ++ sep ++ a)

/-- Unfolding equation of `String.intercalate` on a list of two or more
strings: the separator sits between the head and the joined tail. -/
theorem intercalate_cons_cons (sep a b : String) (l : List String) :
    String.intercalate sep (a :: b :: l) = a ++ sep ++ String.intercalate sep (b :: l) := by
  show String.intercalate.go (a ++ sep ++ b) sep l
      = (a ++ sep) ++ String.intercalate.go b sep l
  exact intercalate_go_append (a ++ sep) b sep l

/-! ## Claim theorems -/

/-- C1: `get_next_vandenberg_launch` scans the results in order and returns a
record for the first launch whose lowercased pad name or lowercased
pad-location name contains one of the keywords `vandenberg`, `vsfb`, `slc-4`,
`slc-3` as a substring (case-insensitive substring semantics); when no launch
matches it returns `none`, not an error. -/
theorem keyword_filter_spec :
    (∀ launch : Launch, matches_vandenberg launch = true ↔
      ∃ keyword ∈ vandenberg_keywords,
        keyword.data <:+: (pad_name_of launch).data ∨
        keyword.data <:+: (location_name_of launch).data) ∧
    (∀ pre x post,
      (∀ y ∈ pre, matches_vandenberg y = false) →
      matches_vandenberg x = true →
      get_next_vandenberg_launch (FetchOutcome.ok (pre ++ x :: post)) =
        some (mk_launch_record x)) ∧
    (∀ launches, (∀ y ∈ launches, matches_vandenberg y = false) →
      get_next_vandenberg_launch (FetchOutcome.ok launches) = none) := by
  refine ⟨?_, ?_, ?_⟩
  · intro launch
    unfold matches_vandenberg
    rw [Bool.or_eq_true, List.any_eq_true, List.any_eq_true]
    constructor
    · rintro (⟨k, hk, h⟩ | ⟨k, hk, h⟩)
      · exact ⟨k, hk, Or.inl ((containsSubstr_iff _ _).mp h)⟩
      · exact ⟨k, hk, Or.inr ((containsSubstr_iff _ _).mp h)⟩
    · rintro ⟨k, hk, h | h⟩
      · exact Or.inl ⟨k, hk, (containsSubstr_iff _ _).mpr h⟩
      · exact Or.inr ⟨k, hk, (containsSubstr_iff _ _).mpr h⟩
  · intro pre x post hpre hx
    exact find_vandenberg_append pre x post hpre hx
  · intro launches h
    exact find_vandenberg_none launches h

/-- Witness for C1: in a list whose first element is a Cape Canaveral launch
and whose second is a Vandenberg launch, the Vandenberg one is returned. -/
theorem keyword_filter_spec_witness :
    get_next_vandenberg_launch (FetchOutcome.ok [capeLaunch, vandyLaunch]) =
      some (mk_launch_record vandyLaunch) :=
  keyword_filter_spec.2.1 [capeLaunch] vandyLaunch [] (by decide) (by decide)

/-- C2: `send_to_meshtastic` leaves a message of at most 200 characters
unmodified; a longer message is replaced by its first 197 characters followed
by `...`, giving exactly 200 characters, and the truncation warning is
printed; the possibly-truncated message is the one the rest of the function
uses. -/
theorem truncation_spec (message : String) :
    (message.length ≤ 200 → truncate_message message = (message, false)) ∧
    (message.length > 200 →
      (truncate_message message).1.length = 200 ∧
      (truncate_message message).1.data = message.data.take 197 ++ ['.', '.', '.'] ∧
      (truncate_message message).2 = true) ∧
    (∀ config world,
      (send_to_meshtastic message config world).message_used =
        (truncate_message message).1 ∧
      (send_to_meshtastic message config world).warned =
        (truncate_message message).2) := by
  refine ⟨?_, ?_, ?_⟩
  · intro h
    unfold truncate_message
    rw [if_neg (by omega)]
  · intro h
    unfold truncate_message
    rw [if_pos h]
    refine ⟨?_, rfl, rfl⟩
    show (String.mk (message.data.take 197) ++ "...").data.length = 200
    have hdata : (String.mk (message.data.take 197) ++ "...").data
        = message.data.take 197 ++ ['.', '.', '.'] := rfl
    rw [hdata]
    simp only [List.length_append, List.length_take, List.length_cons, List.length_nil]
    have hl : message.data.length = message.length := rfl
    omega
  · intro config world
    cases hs : config.send_enabled <;>
      cases hc : world.connect_raises <;>
        cases hw : world.send_raises <;>
          simp [send_to_meshtastic, hs, hc, hw]

/-- Witness for C2: a 5-character message passes unmodified; a 201-character
message is truncated to exactly 200 characters with the warning. -/
theorem truncation_spec_witness :
    truncate_message "hello" = ("hello", false) ∧
    (truncate_message (String.mk (List.replicate 201 'a'))).1.length = 200 ∧
    (truncate_message (String.mk (List.replicate 201 'a'))).2 = true :=
  ⟨(truncation_spec "hello").1 (by decide),
   ((truncation_spec (String.mk (List.replicate 201 'a'))).2.1 (by decide)).1,
   ((truncation_spec (String.mk (List.replicate 201 'a'))).2.1 (by decide)).2.2⟩

/-- C4: `get_payload_info` joins the payload names with `", "` in their
original order — characterised by its value on singletons and the recursive
separator equation — and yields the literal `"No payload information"` on the
empty list; `format_launch_message` of an absent record is exactly the
literal `"No upcoming Vandenberg launches found."`. -/
theorem payload_join_spec :
    get_payload_info [] = "No payload information" ∧
    (∀ a : String, get_payload_info [a] = a) ∧
    (∀ (a b : String) (l : List String),
      get_payload_info (a :: b :: l) = a ++ ", " ++ get_payload_info (b :: l)) ∧
    format_launch_message none = some "No upcoming Vandenberg launches found." := by
  refine ⟨rfl, fun a => rfl, fun a b l => ?_, rfl⟩
  show String.intercalate ", " (a :: b :: l) = a ++ ", " ++ String.intercalate ", " (b :: l)
  exact intercalate_cons_cons ", " a b l

/-- C10: `load_config` enables sending iff the environment value, lowercased,
is exactly the string `true`; an unset variable defaults to `true`; values
such as `1`, `yes` or `TRUE ` (trailing blank) give dry-run mode. -/
theorem send_enabled_env_spec :
    (∀ v : Option String,
      load_config_send_enabled v = true ↔ pyLower (v.getD "true") = "true") ∧
    load_config_send_enabled none = true ∧
    load_config_send_enabled (some "1") = false ∧
    load_config_send_enabled (some "yes") = false ∧
    load_config_send_enabled (some "TRUE ") = false ∧
    load_config_send_enabled (some "True") = true := by
  refine ⟨fun v => ?_, by decide, by decide, by decide, by decide, by decide⟩
  unfold load_config_send_enabled
  exact beq_iff_eq

/-- C3: on the mock Starlink record the formatter normalizes the trailing `Z`
to `+00:00`, converts to the fixed UTC-7 zone yielding the date line
`Mar 15, 2024 @ 11:30 AM` and the payload line `📦 Starlink Group 9-1`; and
in general, whenever the timestamp parses, the output is the title line
followed by the three emoji-prefixed lines joined by newlines. -/
theorem formatter_datetime_spec :
    format_launch_message (some starlinkRecord) =
      some ("Next Vandenberg Launch:\n🚀 Starlink Group 9-1\n" ++
            "📅 Mar 15, 2024 @ 11:30 AM AZ\n📦 Starlink Group 9-1") ∧
    replaceChar starlinkRecord.date_utc 'Z' "+00:00" = "2024-03-15T18:30:00+00:00" ∧
    strftime_launch (astimezone
      { year := 2024, month := 3, day := 15, hour := 18, minute := 30,
        second := 0, offset_minutes := 0 } phoenix_offset) =
      "Mar 15, 2024 @ 11:30 AM" ∧
    (∀ (info : LaunchInfo) (dt : PyDateTime),
      fromisoformat (replaceChar info.date_utc 'Z' "+00:00") = some dt →
      format_launch_message (some info) =
        some ("Next Vandenberg Launch:\n🚀 " ++ info.name ++ "\n📅 " ++
              strftime_launch (astimezone dt phoenix_offset) ++ " AZ\n📦 " ++
              get_payload_info info.payload_names)) := by
  refine ⟨by decide, by decide, by decide, ?_⟩
  intro info dt h
  simp only [format_launch_message, h]

/-- Witness for C3: the general template theorem applied to the mock Starlink
record and its parsed UTC timestamp. -/
theorem formatter_datetime_spec_witness :
    format_launch_message (some starlinkRecord) =
      some ("Next Vandenberg Launch:\n🚀 " ++ starlinkRecord.name ++ "\n📅 " ++
            strftime_launch (astimezone
              { year := 2024, month := 3, day := 15, hour := 18, minute := 30,
                second := 0, offset_minutes := 0 } phoenix_offset) ++ " AZ\n📦 " ++
            get_payload_info starlinkRecord.payload_names) :=
  formatter_datetime_spec.2.2.2 starlinkRecord
    { year := 2024, month := 3, day := 15, hour := 18, minute := 30,
      second := 0, offset_minutes := 0 } (by decide)

/-- C5 counterexample: a launch whose mission has a name and a description but
no `type` key still yields `mission_type = "Unknown"`, so `mission_type` does
not default to `"Unknown"` exactly when the launch has no mission name or
description — it defaults exactly when the `type` key is absent. -/
theorem mission_type_counterexample :
    (mk_launch_record vandyLaunch).mission_type = "Unknown" ∧
    vandyLaunch.mission.bind Mission.name = some "Starlink Group 9-1" ∧
    vandyLaunch.mission.bind Mission.description =
      some "A batch of Starlink satellites" ∧
    ¬ ((mk_launch_record vandyLaunch).mission_type = "Unknown" ↔
       (vandyLaunch.mission.bind Mission.name = none ∧
        vandyLaunch.mission.bind Mission.description = none)) := by decide

/-- C5 (amended): payload_names is the mission name when that is present and
non-empty, else the rocket configuration name when that is non-empty, else
empty; `mission_type` is the mission's `type` value when present and defaults
to `"Unknown"` exactly when the `type` key is absent, regardless of mission
name or description. -/
theorem mission_type_amended_spec (launch : Launch) :
    ((launch.mission.bind Mission.name).getD "" ≠ "" →
      (mk_launch_record launch).payload_names =
        [(launch.mission.bind Mission.name).getD ""]) ∧
    ((launch.mission.bind Mission.name).getD "" = "" →
      (((launch.rocket.bind Rocket.configuration).bind RocketConfiguration.name).getD "" ≠ "" →
        (mk_launch_record launch).payload_names =
          [((launch.rocket.bind Rocket.configuration).bind RocketConfiguration.name).getD ""]) ∧
      (((launch.rocket.bind Rocket.configuration).bind RocketConfiguration.name).getD "" = "" →
        (mk_launch_record launch).payload_names = [])) ∧
    (∀ t, launch.mission.bind Mission.type = some t →
      (mk_launch_record launch).mission_type = t) ∧
    (launch.mission.bind Mission.type = none →
      (mk_launch_record launch).mission_type = "Unknown") := by
  refine ⟨?_, ?_, ?_, ?_⟩
  · intro h
    simp [mk_launch_record, h]
  · intro h
    refine ⟨fun hr => ?_, fun hr => ?_⟩ <;> simp [mk_launch_record, h, hr]
  · intro t ht
    simp [mk_launch_record, ht]
  · intro ht
    simp [mk_launch_record, ht]

/-- Witness for C5 (amended): on the concrete Vandenberg launch the payload
names come from the mission name and the absent `type` key defaults to
`"Unknown"`. -/
theorem mission_type_amended_spec_witness :
    (mk_launch_record vandyLaunch).payload_names = ["Starlink Group 9-1"] ∧
    (mk_launch_record vandyLaunch).mission_type = "Unknown" :=
  ⟨(mission_type_amended_spec vandyLaunch).1 (by decide),
   (mission_type_amended_spec vandyLaunch).2.2.2 (by decide)⟩

/-- C6: every fetch failure — timeout, non-2xx status, malformed body — is
caught and returns the same `none` as an empty result list, and the process
still exits with code 0. -/
theorem fetch_failure_spec (config : Config) (world : DeviceWorld) :
    get_next_vandenberg_launch FetchOutcome.timeout = none ∧
    (∀ status, get_next_vandenberg_launch (FetchOutcome.httpError status) = none) ∧
    get_next_vandenberg_launch FetchOutcome.malformedBody = none ∧
    get_next_vandenberg_launch (FetchOutcome.ok []) = none ∧
    mainRun FetchOutcome.timeout config world = some 0 ∧
    (∀ status, mainRun (FetchOutcome.httpError status) config world = some 0) ∧
    mainRun FetchOutcome.malformedBody config world = some 0 ∧
    mainRun (FetchOutcome.ok []) config world = some 0 :=
  ⟨rfl, fun _ => rfl, rfl, rfl, rfl, fun _ => rfl, rfl, rfl⟩

/-- C7: whenever `main` returns an exit code, the code is 0 or 1; it is 0
when no launch was found; and when a launch was found and formatted, the code
is 0 exactly on a successful send and 1 exactly on a failed send. -/
theorem exit_code_spec (outcome : FetchOutcome) (config : Config)
    (world : DeviceWorld) (code : Nat)
    (h : mainRun outcome config world = some code) :
    (code = 0 ∨ code = 1) ∧
    (get_next_vandenberg_launch outcome = none → code = 0) ∧
    (∀ launch_info message,
      get_next_vandenberg_launch outcome = some launch_info →
      format_launch_message (some launch_info) = some message →
      ((send_to_meshtastic message config world).success = true → code = 0) ∧
      ((send_to_meshtastic message config world).success = false → code = 1)) := by
  unfold mainRun at h
  split at h
  next hg =>
    injection h with h
    subst h
    refine ⟨Or.inl rfl, fun _ => rfl, fun li msg hli _ => ?_⟩
    rw [hg] at hli
    exact Option.noConfusion hli
  next li hg =>
    split at h
    next hf => exact Option.noConfusion h
    next msg hf =>
      injection h with h
      subst h
      refine ⟨?_, ?_, ?_⟩
      · by_cases hs : (send_to_meshtastic msg config world).success <;> simp [hs]
      · intro h0
        rw [hg] at h0
        exact Option.noConfusion h0
      · intro li2 msg2 hli2 hmsg2
        rw [hg] at hli2
        injection hli2 with hli2
        subst hli2
        rw [hf] at hmsg2
        injection hmsg2 with hmsg2
        subst hmsg2
        constructor
        · intro hs
          simp [hs]
        · intro hs
          simp [hs]

/-- Witness for C7: a run where the Vandenberg launch is found, the device
accepts the connection but `sendText` raises, exits with code 1. -/
theorem exit_code_spec_witness :
    (1 = 0 ∨ 1 = 1) ∧
    (get_next_vandenberg_launch (FetchOutcome.ok [capeLaunch, vandyLaunch]) = none →
      1 = 0) :=
  have h := exit_code_spec (FetchOutcome.ok [capeLaunch, vandyLaunch]) liveConfig
    { connect_raises := false, send_raises := true } 1 (by decide)
  ⟨h.1, h.2.1⟩

/-- C8: with sending disabled, `send_to_meshtastic` makes no device
interaction at all — its event trace is empty, so no connection attempt of
either transport kind occurs — and it returns `True` unconditionally. -/
theorem dry_run_spec (message : String) (config : Config) (world : DeviceWorld)
    (h : config.send_enabled = false) :
    (send_to_meshtastic message config world).success = true ∧
    (send_to_meshtastic message config world).events = [] := by
  constructor <;> simp [send_to_meshtastic, h]

/-- Witness for C8: with the dry-run configuration the send succeeds with an
empty trace even when the device would reject both connecting and sending. -/
theorem dry_run_spec_witness :
    (send_to_meshtastic "hello" dryConfig
      { connect_raises := true, send_raises := true }).success = true ∧
    (send_to_meshtastic "hello" dryConfig
      { connect_raises := true, send_raises := true }).events = [] :=
  dry_run_spec "hello" dryConfig { connect_raises := true, send_raises := true } rfl

/-- C9: in send-enabled mode there is exactly one connection attempt; when
the connection opens, exactly one `sendText` on the configured channel with
the message in use is issued; the call returns `True` exactly when neither
connect nor send raised; and whenever the connection was opened it is closed,
as the final event before returning — the connection never leaks. -/
theorem live_send_spec (message : String) (config : Config) (world : DeviceWorld)
    (h : config.send_enabled = true) :
    ((send_to_meshtastic message config world).events.filter isConnect).length = 1 ∧
    ((send_to_meshtastic message config world).events.filter isSend =
      if world.connect_raises then []
      else [DevEvent.sendText (send_to_meshtastic message config world).message_used
              config.channel]) ∧
    ((send_to_meshtastic message config world).success = true ↔
      world.connect_raises = false ∧ world.send_raises = false) ∧
    (DevEvent.close ∈ (send_to_meshtastic message config world).events ↔
      world.connect_raises = false) ∧
    (world.connect_raises = false →
      (send_to_meshtastic message config world).events.getLast? =
        some DevEvent.close) := by
  cases hc : world.connect_raises <;>
    cases hs : world.send_raises <;>
      cases hct : config.connection_type == "tcp" <;>
        simp [send_to_meshtastic, h, hc, hs, hct, isConnect, isSend]

/-- Witness for C9: with a healthy device, the live configuration produces
exactly the trace connect, send, close and reports success. -/
theorem live_send_spec_witness :
    (((send_to_meshtastic "hello" liveConfig
        { connect_raises := false, send_raises := false }).events.filter isConnect).length = 1) ∧
    ((send_to_meshtastic "hello" liveConfig
        { connect_raises := false, send_raises := false }).success = true ↔
      (false = false ∧ false = false)) :=
  have h := live_send_spec "hello" liveConfig
    { connect_raises := false, send_raises := false } rfl
  ⟨h.1, h.2.2.1⟩

end SpacexMeshtastic
